import Mathlib

/-!
Verification of the EcoLens image-resizer core: the dimension resolver
(`updateDimensions`, `updatePercentage`), the savings estimator
(`newSizeEstimate` / `savedBytes` / `savedCO2` / `sizePercent`), the
rasterization operation (`resizeImage`), and the debounced resize
scheduler (the `useEffect` in `App.tsx`), shallowly embedded in Lean.

JavaScript numbers are modelled as exact rationals (`ℚ`); the few places
where a division can produce `NaN` or `±Infinity` use the extended type
`JNum` below, so that the divide-by-zero behaviour of the source is
preserved exactly.  `Math.round x` is `⌊x + 1/2⌋` (JS rounds half-way
cases toward +∞); `Math.round` of `±Infinity` / `NaN` returns its
argument, and `x || 0` replaces the falsy values `NaN` and `0` by `0`.
-/

/-- A JavaScript number: either a finite rational or one of the
special values `+Infinity`, `-Infinity`, `NaN`. -/
inductive JNum where
  | fin (q : ℚ)
  | posInf
  | negInf
  | nan
deriving DecidableEq, Repr

/-- `Math.round` on a finite JS number: round half-way cases up. -/
def jsRound (q : ℚ) : ℚ := ((⌊q + 1/2⌋ : ℤ) : ℚ)

/-- JS division `a / b` of two finite numbers: finite quotient when
`b ≠ 0`, otherwise `±Infinity` or `NaN` according to the sign of `a`. -/
def jdivFin (a b : ℚ) : JNum :=
  if b = 0 then
    if 0 < a then .posInf else if a < 0 then .negInf else .nan
  else .fin (a / b)

/-- JS multiplication of a number by the literal `100`. -/
def jmul100 : JNum → JNum
  | .fin q => .fin (q * 100)
  | .posInf => .posInf
  | .negInf => .negInf
  | .nan => .nan

/-- `Math.round` extended to special values (it fixes `±Infinity` and `NaN`). -/
def jroundJ : JNum → JNum
  | .fin q => .fin (jsRound q)
  | x => x

/-- The JS idiom `x || 0`: falsy inputs (`NaN`, `0`) become `0`. -/
def jsOr0 : JNum → JNum
  | .nan => .fin 0
  | .fin q => .fin q
  | x => x

/-- Whether a JS number is finite (neither `NaN` nor `±Infinity`). -/
def JNum.isFinite : JNum → Bool
  | .fin _ => true
  | _ => false

/-- `types.ts`: `ImageDimensions`. -/
structure ImageDimensions where
  width : ℚ
  height : ℚ
deriving DecidableEq, Repr

/-- `types.ts`: `ResizeMode`. -/
inductive ResizeMode where
  | pixels
  | percentage
deriving DecidableEq, Repr

/-- `types.ts`: the `format` field of `ResizeOptions`. -/
inductive ImageFormat where
  | jpeg
  | png
  | webp
deriving DecidableEq, Repr

/-- `types.ts`: `ResizeOptions`.  The `percentage` field is a `JNum`
because `updateDimensions` stores the result of a division that can be
non-finite; `maintainAspect` is the source's `maintainAspectRatio`. -/
structure ResizeOptions where
  width : ℚ
  height : ℚ
  percentage : JNum
  mode : ResizeMode
  quality : ℚ
  format : ImageFormat
  maintainAspect : Bool
deriving DecidableEq, Repr

/-- Which axis a dimension edit targets (the `key` argument of
`updateDimensions` in `App.tsx`). -/
inductive Axis where
  | width
  | height
deriving DecidableEq, Repr

/-- The percentage recomputed by `updateDimensions` in `App.tsx`:
`Math.round((newW / originalDims.width) * 100) || 0`. -/
def percentJS (w ow : ℚ) : JNum :=
  jsOr0 (jroundJ (jmul100 (jdivFin w ow)))

/-- `App.tsx` `updateDimensions`: reject negative values; set the edited
axis; when the aspect lock is on and the corresponding original axis is
positive, recompute the other axis from the original ratio; always
recompute `percentage` from the new width. -/
def updateDimensions (orig : ImageDimensions) (opts : ResizeOptions)
    (key : Axis) (value : ℚ) : ResizeOptions :=
  if value < 0 then opts
  else
    match key with
    | .width =>
      let newW := value
      let newH :=
        if opts.maintainAspect = true ∧ 0 < orig.width then
          jsRound (value * (orig.height / orig.width))
        else opts.height
      { opts with width := newW, height := newH,
                  percentage := percentJS newW orig.width }
    | .height =>
      let newH := value
      let newW :=
        if opts.maintainAspect = true ∧ 0 < orig.height then
          jsRound (value * (orig.width / orig.height))
        else opts.width
      { opts with width := newW, height := newH,
                  percentage := percentJS newW orig.width }

/-- `App.tsx` `updatePercentage`: clamp `val` to `[1,500]` by the two
sequential reassignments of the source, then derive both axes from the
original dimensions. -/
def updatePercentage (orig : ImageDimensions) (opts : ResizeOptions)
    (val : ℚ) : ResizeOptions :=
  let v1 := if val < 1 then 1 else val
  let v2 := if 500 < v1 then 500 else v1
  { opts with percentage := .fin v2,
              width := jsRound (orig.width * (v2 / 100)),
              height := jsRound (orig.height * (v2 / 100)) }

/-- `App.tsx`: the `0.35 g CO2 / MB` constant of the `savedCO2` line. -/
def ENERGY_COEFFICIENT : ℚ := 35 / 100

/-- `App.tsx`: `newSizeEstimate = resizedSrc ? Math.round((resizedSrc.length - 22) * 0.75) : originalSize`. -/
def newSizeEstimate (originalSize : ℚ) (resizedSrc : Option String) : ℚ :=
  match resizedSrc with
  | some s => jsRound (((s.length : ℚ) - 22) * (75 / 100))
  | none => originalSize

/-- `App.tsx`: `savedBytes = Math.max(0, originalSize - newSizeEstimate)`. -/
def savedBytes (originalSize est : ℚ) : ℚ := max 0 (originalSize - est)

/-- `App.tsx`: `savedCO2 = (savedBytes / (1024 * 1024)) * 0.35`. -/
def savedCO2 (saved : ℚ) : ℚ := saved / (1024 * 1024) * ENERGY_COEFFICIENT

/-- `App.tsx`: `sizePercent = Math.round((newSizeEstimate / originalSize) * 100)`.
Note the source has no guard on this division (unlike `percentJS`). -/
def sizePercent (est originalSize : ℚ) : JNum :=
  jroundJ (jmul100 (jdivFin est originalSize))

/-- Failure modes of `resizeImage` in `imageUtils` (`src/unnamed/part_000`):
`img.onerror` rejects (decode failure), and a null `canvas.getContext('2d')`
rejects with `Could not get canvas context` (surface unavailable). -/
inductive ResizeError where
  | decodeError
  | surfaceUnavailable
deriving DecidableEq, Repr

/-- Environment of one `resizeImage` call: whether the source image
decodes (`img.onload` vs `img.onerror`), whether a 2d context is
available, and the browser's `drawImage`+`toDataURL` encoder abstracted
as a function of the drawn width/height and the requested format and
quality. -/
structure RasterEnv where
  decodeOk : Bool
  ctx2d : Bool
  encode : ℚ → ℚ → ImageFormat → ℚ → String

/-- `imageUtils` `resizeImage`: decode failure rejects; missing 2d
context rejects; otherwise the image is drawn stretched to
`options.width × options.height` and encoded with `options.format` at
`options.quality`, and the promise resolves with that payload. -/
def resizeImage (env : RasterEnv) (opts : ResizeOptions) :
    Except ResizeError String :=
  if env.decodeOk = false then .error .decodeError
  else if env.ctx2d = false then .error .surfaceUnavailable
  else .ok (env.encode opts.width opts.height opts.format opts.quality)

/-- State of the debounced resize scheduler (the `useEffect` in
`App.tsx` together with `resizeTimeoutRef`, `isResizing`, `resizedSrc`).
`timer` is the pending `setTimeout` with the options captured by the
effect closure and the delay in ms; `inFlight` lists the started
`resizeImage` calls awaiting resolution, oldest first; `resizedSrc`
abstracts the displayed payload by the options that produced it. -/
structure SchedState where
  previewSrc : Bool
  opts : ResizeOptions
  timer : Option (ResizeOptions × ℕ)
  inFlight : List ResizeOptions
  resizedSrc : Option ResizeOptions
  isResizing : Bool
deriving DecidableEq, Repr

/-- Events of the scheduler: an options change (a `setOptions` that
re-renders), the debounce timer firing, and an in-flight `resizeImage`
promise settling (`ok = false` is the catch branch). -/
inductive SchedEvent where
  | setOptions (o : ResizeOptions)
  | timerFire
  | runComplete (i : ℕ) (ok : Bool)
deriving DecidableEq, Repr

/-- The effect's dependency array, minus `previewSrc` which is tracked
separately: `[options.width, options.height, options.quality, options.format]`. -/
def depsOf (o : ResizeOptions) : ℚ × ℚ × ℚ × ImageFormat :=
  (o.width, o.height, o.quality, o.format)

/-- One run of the effect body, preceded by the cleanup of the previous
run (which clears any pending timeout).  The body returns early when
there is no preview or a dimension is falsy (`0`); otherwise it sets
`isResizing` and schedules a 400 ms timeout capturing the current
options. -/
def effectRun (s : SchedState) : SchedState :=
  let s1 := { s with timer := none }
  if s1.previewSrc = true ∧ s1.opts.width ≠ 0 ∧ s1.opts.height ≠ 0 then
    { s1 with isResizing := true, timer := some (s1.opts, 400) }
  else s1

/-- Small-step semantics of the scheduler.  `setOptions` re-runs the
effect only when a watched dependency changed (React compares the dep
array); `timerFire` starts the captured run; `runComplete i ok` settles
the `i`-th in-flight run: on success its result overwrites `resizedSrc`,
and `finally` always clears `isResizing`. -/
def schedStep (s : SchedState) : SchedEvent → Option SchedState
  | .setOptions o =>
    let s1 := { s with opts := o }
    if depsOf o ≠ depsOf s.opts then some (effectRun s1) else some s1
  | .timerFire =>
    match s.timer with
    | some (o, _) => some { s with timer := none, inFlight := s.inFlight ++ [o] }
    | none => none
  | .runComplete i ok =>
    if h : i < s.inFlight.length then
      some { s with inFlight := s.inFlight.eraseIdx i,
                    resizedSrc := if ok then some (s.inFlight.get ⟨i, h⟩)
                                  else s.resizedSrc,
                    isResizing := false }
    else none

/-- Run the scheduler over a list of events. -/
def runTrace (s : SchedState) : List SchedEvent → Option SchedState
  | [] => some s
  | e :: es => (schedStep s e).bind (fun s2 => runTrace s2 es)

/-- A concrete options record used by the concrete scenarios: an 800×600
image at 100 %, pixel mode, JPEG quality 0.8, aspect lock on. -/
def opts0 : ResizeOptions :=
  { width := 800, height := 600, percentage := .fin 100, mode := .pixels,
    quality := 4/5, format := .jpeg, maintainAspect := true }

/-- Initial scheduler state used by the concrete traces. -/
def sched0 : SchedState :=
  { previewSrc := true, opts := opts0, timer := none, inFlight := [],
    resizedSrc := none, isResizing := false }

/-- First options change of the concrete traces (width 400). -/
def optsA : ResizeOptions := { opts0 with width := 400 }

/-- Second options change of the concrete traces (width 200). -/
def optsB : ResizeOptions := { opts0 with width := 200 }

/-- An options change that zeroes the width. -/
def optsZ : ResizeOptions := { opts0 with width := 0 }

/-- The clamp of a percentage edit into `[1,500]` as the spec describes
it (one nested conditional); the theorems below prove the source's two
sequential reassignments compute exactly this. -/
def clampP (v : ℚ) : ℚ := if v < 1 then 1 else if 500 < v then 500 else v

/-- A rasterization environment whose source image fails to decode. -/
def envDecodeFail : RasterEnv := ⟨false, true, fun _ _ _ _ => ""⟩

/-- A rasterization environment where no 2d context can be acquired. -/
def envNoCtx : RasterEnv := ⟨true, false, fun _ _ _ _ => ""⟩

/-- A scheduler state with one run in flight. -/
def schedBusy : SchedState :=
  { previewSrc := true, opts := opts0, timer := none, inFlight := [optsA],
    resizedSrc := none, isResizing := true }

/-! ## Helper lemmas -/

/-- `Math.round` differs from its argument by at most `1/2`. -/
theorem jsRound_sub_le (q : ℚ) : |jsRound q - q| ≤ 1 / 2 := by
  have h1 : ((⌊q + 1/2⌋ : ℤ) : ℚ) ≤ q + 1/2 := Int.floor_le _
  have h2 : q + 1/2 < ((⌊q + 1/2⌋ : ℤ) : ℚ) + 1 := Int.lt_floor_add_one _
  simp only [jsRound, abs_le]
  constructor <;> linarith

/-- With a nonzero denominator the recomputed percentage is the finite
rounded ratio. -/
theorem percentJS_of_ne (w ow : ℚ) (h : ow ≠ 0) :
    percentJS w ow = .fin (jsRound (w / ow * 100)) := by
  simp [percentJS, jdivFin, h, jmul100, jroundJ, jsOr0]

/-- With denominator `0` and a positive numerator the percentage is
`+Infinity`: the `|| 0` guard does not catch it. -/
theorem percentJS_zero_pos (w : ℚ) (h : 0 < w) : percentJS w 0 = .posInf := by
  simp [percentJS, jdivFin, h, jmul100, jroundJ, jsOr0]

/-- `0 / 0` is `NaN`, which `|| 0` turns into `0`. -/
theorem percentJS_zero_zero : percentJS 0 0 = .fin 0 := by
  simp [percentJS, jdivFin, jmul100, jroundJ, jsOr0]

/-- Scaling a target ratio `r` by a positive width `w` and rounding
moves the achieved ratio by at most `1/(2·w)`. -/
theorem jsRound_ratio_err (w r : ℚ) (hw : 0 < w) :
    |jsRound (w * r) / w - r| ≤ 1 / (2 * w) := by
  have h1 : r = w * r / w := (mul_div_cancel_left₀ r (ne_of_gt hw)).symm
  nth_rewrite 2 [h1]
  rw [div_sub_div_same, abs_div, abs_of_pos hw]
  calc |jsRound (w * r) - w * r| / w
      ≤ (1 / 2) / w := by gcongr; exact jsRound_sub_le _
    _ = 1 / (2 * w) := by rw [div_div]

/-! ## Claim theorems -/

/-- C1: a negative width/height edit leaves the options unchanged; for a
non-negative edit with the aspect lock on and the corresponding original
axis positive, the other axis becomes `round(newValue * otherOriginal /
thisOriginal)`; with the lock off only the edited axis (among width and
height) changes; and for an original 2000×1000 with the lock on, setting
the width to 1000 yields height 500 and percentage 50. -/
theorem spec_C1 (orig : ImageDimensions) (opts : ResizeOptions) (key : Axis)
    (v : ℚ) :
    (v < 0 → updateDimensions orig opts key v = opts) ∧
    (0 ≤ v → opts.maintainAspect = true →
      (key = .width → 0 < orig.width →
        (updateDimensions orig opts key v).width = v ∧
        (updateDimensions orig opts key v).height =
          jsRound (v * (orig.height / orig.width))) ∧
      (key = .height → 0 < orig.height →
        (updateDimensions orig opts key v).height = v ∧
        (updateDimensions orig opts key v).width =
          jsRound (v * (orig.width / orig.height)))) ∧
    (0 ≤ v → opts.maintainAspect = false →
      (key = .width →
        (updateDimensions orig opts key v).width = v ∧
        (updateDimensions orig opts key v).height = opts.height) ∧
      (key = .height →
        (updateDimensions orig opts key v).height = v ∧
        (updateDimensions orig opts key v).width = opts.width)) ∧
    ((updateDimensions ⟨2000, 1000⟩ opts0 .width 1000).height = 500 ∧
     (updateDimensions ⟨2000, 1000⟩ opts0 .width 1000).percentage = .fin 50) := by
  refine ⟨fun h => ?_, fun hv hm => ⟨fun hk hW => ?_, fun hk hH => ?_⟩,
    fun hv hm => ⟨fun hk => ?_, fun hk => ?_⟩, ?_, ?_⟩
  · simp [updateDimensions, h]
  · subst hk; simp [updateDimensions, not_lt.mpr hv, hm, hW]
  · subst hk; simp [updateDimensions, not_lt.mpr hv, hm, hH]
  · subst hk; simp [updateDimensions, not_lt.mpr hv, hm]
  · subst hk; simp [updateDimensions, not_lt.mpr hv, hm]
  · norm_num [updateDimensions, opts0, percentJS, jsRound, jdivFin, jmul100,
      jroundJ, jsOr0]
  · norm_num [updateDimensions, opts0, percentJS, jsRound, jdivFin, jmul100,
      jroundJ, jsOr0]

/-- C1 witness: the width-edit branch evaluated at the 2000×1000 lock-on
scenario. -/
theorem spec_C1_witness :
    (updateDimensions ⟨2000, 1000⟩ opts0 .width 1000).width = 1000 ∧
    (updateDimensions ⟨2000, 1000⟩ opts0 .width 1000).height =
      jsRound (1000 * ((1000 : ℚ) / 2000)) := by
  have h := ((spec_C1 ⟨2000, 1000⟩ opts0 .width 1000).2.1 (by norm_num) rfl).1
    rfl (by norm_num)
  exact h

/-- C2 counterexample: for an original image of width 0, editing the
width to 100 stores `+Infinity` in `percentage` — `Math.round(100 / 0 *
100) = Infinity` is truthy, so the `|| 0` guard does not replace it —
contradicting the claim that the percentage is `0` whenever
`original.width = 0` and never non-finite. -/
theorem spec_C2_cex :
    (updateDimensions ⟨0, 0⟩ opts0 .width 100).percentage = JNum.posInf ∧
    (updateDimensions ⟨0, 0⟩ opts0 .width 100).percentage ≠ JNum.fin 0 ∧
    JNum.isFinite (updateDimensions ⟨0, 0⟩ opts0 .width 100).percentage
      = false := by
  have h1 : (updateDimensions ⟨0, 0⟩ opts0 .width 100).percentage =
      JNum.posInf := by
    norm_num [updateDimensions, opts0, percentJS, jdivFin, jmul100, jroundJ,
      jsOr0]
  refine ⟨h1, ?_, by rw [h1]; rfl⟩
  rw [h1]
  intro h
  exact JNum.noConfusion h

/-- C2 (amended): for every non-negative width/height edit the resulting
percentage is `percentJS resultWidth original.width`, i.e.
`round(resultingWidth / original.width * 100) || 0`; this equals the
finite rounded ratio when `original.width ≠ 0`, equals `0` when
`original.width = 0` and the resulting width is `0` (the `NaN` case the
`|| 0` guard catches), and equals `+Infinity` when `original.width = 0`
and the resulting width is positive. -/
theorem spec_C2 (orig : ImageDimensions) (opts : ResizeOptions) (key : Axis)
    (v : ℚ) (hv : 0 ≤ v) :
    ((updateDimensions orig opts key v).percentage =
      percentJS (updateDimensions orig opts key v).width orig.width) ∧
    (orig.width ≠ 0 →
      (updateDimensions orig opts key v).percentage =
        .fin (jsRound ((updateDimensions orig opts key v).width /
          orig.width * 100))) ∧
    (orig.width = 0 → (updateDimensions orig opts key v).width = 0 →
      (updateDimensions orig opts key v).percentage = .fin 0) ∧
    (orig.width = 0 → 0 < (updateDimensions orig opts key v).width →
      (updateDimensions orig opts key v).percentage = .posInf) := by
  have hbase : (updateDimensions orig opts key v).percentage =
      percentJS (updateDimensions orig opts key v).width orig.width := by
    cases key <;> simp [updateDimensions, not_lt.mpr hv]
  refine ⟨hbase, fun h => ?_, fun h0 hw => ?_, fun h0 hw => ?_⟩
  · rw [hbase, percentJS_of_ne _ _ h]
  · rw [hbase, hw, h0, percentJS_zero_zero]
  · rw [hbase, h0, percentJS_zero_pos _ hw]

/-- C2 witness: the nonzero-width branch evaluated at an 800×600
original with the width edited to 400. -/
theorem spec_C2_witness :
    (updateDimensions ⟨800, 600⟩ opts0 .width 400).percentage =
      .fin (jsRound ((updateDimensions ⟨800, 600⟩ opts0 .width 400).width /
        800 * 100)) :=
  (spec_C2 ⟨800, 600⟩ opts0 .width 400 (by norm_num)).2.1 (by norm_num)

/-- C3: a percentage edit first clamps the value into `[1,500]`, then
sets `width = round(W * p/100)` and `height = round(H * p/100)` for the
clamped `p`; the result is independent of the rest of the options record
(in particular of `maintainAspectRatio`); and for an 800×600 original a
25 % edit yields 200×150. -/
theorem spec_C3 (orig : ImageDimensions) (opts : ResizeOptions) (v : ℚ) :
    1 ≤ clampP v ∧ clampP v ≤ 500 ∧
    (updatePercentage orig opts v).percentage = .fin (clampP v) ∧
    (updatePercentage orig opts v).width =
      jsRound (orig.width * (clampP v / 100)) ∧
    (updatePercentage orig opts v).height =
      jsRound (orig.height * (clampP v / 100)) ∧
    (∀ opts2 : ResizeOptions,
      (updatePercentage orig opts2 v).width =
        (updatePercentage orig opts v).width ∧
      (updatePercentage orig opts2 v).height =
        (updatePercentage orig opts v).height ∧
      (updatePercentage orig opts2 v).percentage =
        (updatePercentage orig opts v).percentage) ∧
    ((updatePercentage ⟨800, 600⟩ opts0 25).width = 200 ∧
     (updatePercentage ⟨800, 600⟩ opts0 25).height = 150) := by
  have hclamp : (if 500 < (if v < 1 then (1 : ℚ) else v) then (500 : ℚ)
      else if v < 1 then 1 else v) = clampP v := by
    unfold clampP
    split_ifs <;> first | rfl | linarith
  refine ⟨?_, ?_, ?_, ?_, ?_, fun opts2 => ⟨rfl, rfl, rfl⟩, ?_, ?_⟩
  · unfold clampP; split_ifs <;> linarith
  · unfold clampP; split_ifs <;> linarith
  · simp only [updatePercentage]; rw [hclamp]
  · simp only [updatePercentage]; rw [hclamp]
  · simp only [updatePercentage]; rw [hclamp]
  · norm_num [updatePercentage, jsRound]
  · norm_num [updatePercentage, jsRound]

/-- C4 counterexample: for an original 1000×1500 with the lock on,
editing the width to 1 gives height `round(1.5) = 2`, and the achieved
ratio differs from the original one by `1/2`, far above the claimed
tolerance `1/min(W,H) = 1/1000`. -/
theorem spec_C4_cex :
    (updateDimensions ⟨1000, 1500⟩ opts0 .width 1).height = 2 ∧
    ¬ |(updateDimensions ⟨1000, 1500⟩ opts0 .width 1).height /
          (updateDimensions ⟨1000, 1500⟩ opts0 .width 1).width -
        (1500 : ℚ) / 1000| ≤ 1 / min (1000 : ℚ) 1500 := by
  have hh : (updateDimensions ⟨1000, 1500⟩ opts0 .width 1).height = 2 := by
    norm_num [updateDimensions, opts0, jsRound]
  have hw : (updateDimensions ⟨1000, 1500⟩ opts0 .width 1).width = 1 := by
    norm_num [updateDimensions, opts0, percentJS, jdivFin, jmul100, jroundJ,
      jsOr0]
  refine ⟨hh, ?_⟩
  rw [hh, hw]
  rw [show min (1000 : ℚ) 1500 = 1000 from min_eq_left (by norm_num)]
  rw [show |(2 : ℚ) / 1 - 1500 / 1000| = 1 / 2 by rw [abs_of_pos] <;> norm_num]
  norm_num

/-- C4 (amended): for original dimensions `W×H` with `W,H > 0` and the
aspect lock on, editing the width to any `W' > 0` yields a height with
`|height'/width' - H/W| ≤ 1/(2·W')` — the correct rounding tolerance;
the claimed bound `1/min(W,H)` does not hold (see the counterexample). -/
theorem spec_C4 (orig : ImageDimensions) (opts : ResizeOptions) (w : ℚ)
    (hW : 0 < orig.width) (_hH : 0 < orig.height)
    (hm : opts.maintainAspect = true) (hw : 0 < w) :
    (updateDimensions orig opts .width w).width = w ∧
    |(updateDimensions orig opts .width w).height /
        (updateDimensions orig opts .width w).width -
      orig.height / orig.width| ≤ 1 / (2 * w) := by
  have hv : ¬ w < 0 := not_lt.mpr hw.le
  have hwidth : (updateDimensions orig opts .width w).width = w := by
    simp [updateDimensions, hv, hm, hW]
  have hheight : (updateDimensions orig opts .width w).height =
      jsRound (w * (orig.height / orig.width)) := by
    simp [updateDimensions, hv, hm, hW]
  refine ⟨hwidth, ?_⟩
  rw [hwidth, hheight]
  exact jsRound_ratio_err w (orig.height / orig.width) hw

/-- C4 witness: the amended bound evaluated at the 2000×1000 scenario
with the width edited to 1000. -/
theorem spec_C4_witness :
    (updateDimensions ⟨2000, 1000⟩ opts0 .width 1000).width = 1000 ∧
    |(updateDimensions ⟨2000, 1000⟩ opts0 .width 1000).height /
        (updateDimensions ⟨2000, 1000⟩ opts0 .width 1000).width -
      (⟨2000, 1000⟩ : ImageDimensions).height /
        (⟨2000, 1000⟩ : ImageDimensions).width| ≤ 1 / (2 * 1000) :=
  spec_C4 ⟨2000, 1000⟩ opts0 1000 (by norm_num) (by norm_num) rfl (by norm_num)

/-- C7: with a payload present, the estimated new size is
`round((payloadLength - 22) * 0.75)`; `savedBytes` is
`max(0, originalBytes - estimate)` and hence never negative; and the CO2
proxy is `savedBytes / (1024*1024)` times the fixed coefficient `0.35`. -/
theorem spec_C7 (orig : ℚ) (s : String) (_h : 0 ≤ orig) :
    newSizeEstimate orig (some s) =
      jsRound (((s.length : ℚ) - 22) * (75 / 100)) ∧
    savedBytes orig (newSizeEstimate orig (some s)) =
      max 0 (orig - newSizeEstimate orig (some s)) ∧
    0 ≤ savedBytes orig (newSizeEstimate orig (some s)) ∧
    savedCO2 (savedBytes orig (newSizeEstimate orig (some s))) =
      savedBytes orig (newSizeEstimate orig (some s)) / (1024 * 1024) *
        (35 / 100) :=
  ⟨rfl, rfl, le_max_left 0 _, rfl⟩

/-- C7 witness: the estimator pipeline evaluated on a 10000-byte
original and a 26-character data-URL payload. -/
theorem spec_C7_witness :
    0 ≤ savedBytes 10000
      (newSizeEstimate 10000 (some "data:image/png;base64,AAAA")) :=
  (spec_C7 10000 "data:image/png;base64,AAAA" (by norm_num)).2.2.1

/-- C8 counterexample: with `originalBytes = 0` and a 26-character
payload the estimate is `3`, and `sizePercent` is
`Math.round(3 / 0 * 100) = Infinity` — a non-finite value is propagated,
there is no special case for a zero original size. -/
theorem spec_C8_cex :
    sizePercent (newSizeEstimate 0 (some "data:image/png;base64,AAAA")) 0 =
      JNum.posInf ∧
    JNum.isFinite
      (sizePercent (newSizeEstimate 0 (some "data:image/png;base64,AAAA")) 0)
      = false := by
  have hl : ("data:image/png;base64,AAAA".length : ℕ) = 26 := rfl
  have h1 : sizePercent
      (newSizeEstimate 0 (some "data:image/png;base64,AAAA")) 0 =
      JNum.posInf := by
    norm_num [sizePercent, newSizeEstimate, jsRound, jdivFin, jmul100,
      jroundJ, hl]
  exact ⟨h1, by rw [h1]; rfl⟩

/-- C8 (amended): `percentOfOriginal` equals
`round(estimatedNewBytes / originalBytes * 100)` when
`originalBytes ≠ 0`; when `originalBytes = 0` the non-finite result of
the division is propagated unguarded: `+Infinity` for a positive
estimate, `NaN` for a zero estimate, `-Infinity` for a negative one. -/
theorem spec_C8 (est orig : ℚ) :
    (orig ≠ 0 → sizePercent est orig = .fin (jsRound (est / orig * 100))) ∧
    (orig = 0 → 0 < est → sizePercent est orig = .posInf) ∧
    (orig = 0 → est = 0 → sizePercent est orig = .nan) ∧
    (orig = 0 → est < 0 → sizePercent est orig = .negInf) := by
  refine ⟨fun h => ?_, fun h0 hp => ?_, fun h0 hz => ?_, fun h0 hn => ?_⟩
  · simp [sizePercent, jdivFin, h, jmul100, jroundJ]
  · subst h0; simp [sizePercent, jdivFin, hp, jmul100, jroundJ]
  · subst h0; subst hz; simp [sizePercent, jdivFin, jmul100, jroundJ]
  · subst h0
    simp [sizePercent, jdivFin, asymm hn, hn, jmul100, jroundJ]

/-- C8 witness: the finite branch evaluated at estimate 750 over a
10000-byte original. -/
theorem spec_C8_witness :
    sizePercent 750 10000 = .fin (jsRound ((750 : ℚ) / 10000 * 100)) :=
  (spec_C8 750 10000).1 (by norm_num)

/-- C9: a decode failure rejects the whole `resizeImage` call with
`DecodeError`; failing to acquire a 2d drawing surface rejects it with
`SurfaceUnavailable` (the `Could not get canvas context` rejection), not
a silent no-op; and every call either rejects with one of these errors
or resolves with a complete encoded payload — never a partial result. -/
theorem spec_C9 (env : RasterEnv) (opts : ResizeOptions) :
    (env.decodeOk = false → resizeImage env opts = .error .decodeError) ∧
    (env.decodeOk = true → env.ctx2d = false →
      resizeImage env opts = .error .surfaceUnavailable) ∧
    ((∃ e, resizeImage env opts = .error e) ∨
     (∃ p, resizeImage env opts = .ok p)) := by
  obtain ⟨dec, ctx, enc⟩ := env
  refine ⟨fun h => by subst h; rfl, fun h1 h2 => by subst h1; subst h2; rfl, ?_⟩
  cases dec
  · exact .inl ⟨.decodeError, rfl⟩
  · cases ctx
    · exact .inl ⟨.surfaceUnavailable, rfl⟩
    · exact .inr ⟨_, rfl⟩

/-- C9 witness: the two failure branches evaluated in concrete
environments. -/
theorem spec_C9_witness :
    resizeImage envDecodeFail opts0 = .error .decodeError ∧
    resizeImage envNoCtx opts0 = .error .surfaceUnavailable :=
  ⟨(spec_C9 envDecodeFail opts0).1 rfl, (spec_C9 envNoCtx opts0).2.1 rfl rfl⟩

/-- C10: the `mode` field influences neither operation: running
`updateDimensions` or `updatePercentage` on two options records that
differ only in `mode` yields the same resulting width, height and
percentage. -/
theorem spec_C10 (orig : ImageDimensions) (opts : ResizeOptions)
    (m : ResizeMode) (key : Axis) (v pv : ℚ) :
    ((updateDimensions orig { opts with mode := m } key v).width =
      (updateDimensions orig opts key v).width ∧
     (updateDimensions orig { opts with mode := m } key v).height =
      (updateDimensions orig opts key v).height ∧
     (updateDimensions orig { opts with mode := m } key v).percentage =
      (updateDimensions orig opts key v).percentage) ∧
    ((updatePercentage orig { opts with mode := m } pv).width =
      (updatePercentage orig opts pv).width ∧
     (updatePercentage orig { opts with mode := m } pv).height =
      (updatePercentage orig opts pv).height ∧
     (updatePercentage orig { opts with mode := m } pv).percentage =
      (updatePercentage orig opts pv).percentage) := by
  refine ⟨⟨?_, ?_, ?_⟩, rfl, rfl, rfl⟩ <;>
    cases key <;> simp only [updateDimensions] <;> split_ifs <;> rfl

/-- C5 counterexample: a full trace in which a first change (to `optsA`)
fires and its run is in flight when a second change (to `optsB`) fires
and completes first; when the stale `optsA` run then resolves, its
result overwrites `resizedSrc` — the final display shows the stale
`optsA` payload even though the newer `optsB` run completed after it
started; nothing in the code tags runs with a generation or drops stale
results. -/
theorem spec_C5_cex :
    runTrace sched0 [.setOptions optsA, .timerFire, .setOptions optsB,
        .timerFire, .runComplete 1 true, .runComplete 0 true] =
      some ⟨true, optsB, none, [], some optsA, false⟩ ∧
    optsA ≠ optsB := by
  refine ⟨rfl, ?_⟩
  simp only [optsA, optsB, ne_eq, ResizeOptions.mk.injEq]
  norm_num

/-- C5 (amended): the scheduler has no generation counter; a run that
has started is never invalidated, and whenever an in-flight run
completes successfully its result overwrites `resizedSrc`
unconditionally (and `finally` clears the busy flag), so the displayed
payload follows completion order, not request order. -/
theorem spec_C5 (s : SchedState) (i : ℕ) (h : i < s.inFlight.length) :
    ∃ s2, schedStep s (.runComplete i true) = some s2 ∧
      s2.resizedSrc = some (s.inFlight.get ⟨i, h⟩) ∧
      s2.isResizing = false := by
  refine ⟨{ s with
            inFlight := s.inFlight.eraseIdx i
            resizedSrc := some (s.inFlight.get ⟨i, h⟩)
            isResizing := false }, ?_, rfl, rfl⟩
  simp only [schedStep]
  rw [dif_pos h]
  simp

/-- C5 witness: completing the single in-flight run of `schedBusy`
overwrites the display with that run's payload. -/
theorem spec_C5_witness :
    ∃ s2, schedStep schedBusy (.runComplete 0 true) = some s2 ∧
      s2.resizedSrc = some optsA ∧ s2.isResizing = false := by
  obtain ⟨s2, h1, h2, h3⟩ := spec_C5 schedBusy 0 (by decide)
  exact ⟨s2, h1, by rw [h2]; rfl, h3⟩

/-- C6 counterexample: from an idle state, a width change to 400 leaves
a pending 400 ms run; a second change that sets the width to `0` cancels
that pending run (the effect cleanup) but — contrary to the claim that
every change schedules a new run — schedules nothing, because the effect
body returns early on a falsy dimension: afterwards no timer is pending
and no run is in flight, so no rasterization is ever observed. -/
theorem spec_C6_cex :
    (runTrace sched0 [.setOptions optsA]).map SchedState.timer =
      some (some (optsA, 400)) ∧
    runTrace sched0 [.setOptions optsA, .setOptions optsZ] =
      some ⟨true, optsZ, none, [], none, true⟩ ∧
    (⟨true, optsZ, none, [], none, true⟩ : SchedState).timer = none ∧
    (⟨true, optsZ, none, [], none, true⟩ : SchedState).inFlight = [] :=
  ⟨rfl, rfl, rfl, rfl⟩

/-- C6 (amended): a change that alters a watched dependency (width,
height, quality or format) always cancels any pending scheduled run, and
schedules a new 400 ms run capturing the new options exactly when the
preview is present and both dimensions are nonzero (otherwise nothing is
scheduled); two rapid watched changes within the debounce window lead to
exactly one rasterization run, carrying the options of the final change,
after which no further timer is pending. -/
theorem spec_C6 (s : SchedState) (o : ResizeOptions)
    (hdep : depsOf o ≠ depsOf s.opts) :
    (∃ s2, schedStep s (.setOptions o) = some s2 ∧
      (s.previewSrc = true → o.width ≠ 0 → o.height ≠ 0 →
        s2.timer = some (o, 400) ∧ s2.isResizing = true) ∧
      ((s.previewSrc = false ∨ o.width = 0 ∨ o.height = 0) →
        s2.timer = none)) ∧
    runTrace sched0 [.setOptions optsA, .setOptions optsB, .timerFire] =
      some ⟨true, optsB, none, [optsB], none, true⟩ ∧
    schedStep ⟨true, optsB, none, [optsB], none, true⟩ .timerFire = none := by
  refine ⟨⟨effectRun { s with opts := o }, ?_, fun hp hw hh => ?_,
    fun hor => ?_⟩, rfl, rfl⟩
  · simp only [schedStep]
    rw [if_pos hdep]
  · have hc : ({ s with opts := o } : SchedState).previewSrc = true ∧
        ({ s with opts := o } : SchedState).opts.width ≠ 0 ∧
        ({ s with opts := o } : SchedState).opts.height ≠ 0 := ⟨hp, hw, hh⟩
    simp only [effectRun]
    rw [if_pos hc]
    exact ⟨rfl, rfl⟩
  · have hc : ¬ (({ s with opts := o } : SchedState).previewSrc = true ∧
        ({ s with opts := o } : SchedState).opts.width ≠ 0 ∧
        ({ s with opts := o } : SchedState).opts.height ≠ 0) := by
      rcases hor with h | h | h <;> simp [h]
    simp only [effectRun]
    rw [if_neg hc]

/-- C6 witness: the first change of the two-rapid-changes scenario
schedules the 400 ms run capturing the changed options. -/
theorem spec_C6_witness :
    ∃ s2, schedStep sched0 (.setOptions optsA) = some s2 ∧
      s2.timer = some (optsA, 400) := by
  obtain ⟨⟨s2, h1, h2, h3⟩, h4, h5⟩ := spec_C6 sched0 optsA (by
    simp only [depsOf, optsA, opts0, sched0, ne_eq, Prod.mk.injEq]
    norm_num)
  refine ⟨s2, h1, ?_⟩
  exact (h2 rfl (by norm_num [optsA, opts0]) (by norm_num [optsA, opts0])).1
